import Mathlib

/-
Shallow embedding of rsn_status_monitor.py (danmergens/ooi-status).

Modelling conventions:
  * Python floats (timestamps, thresholds, rates) are modelled as rationals.
  * Particle counts are modelled as integers.
  * Nullable columns are modelled as Option values; Python truthiness of a
    nullable numeric field ("if warn_interval and ...") is: non-null and
    non-zero.
  * The relational store is a record of lists; query(...).filter(...).first()
    becomes a first-match scan; newly staged rows are consed at the head of
    the corresponding list, so each list is newest-first.
  * Absolute timestamps are Unix seconds (rationals); the value produced by
    datetime.datetime.utcfromtimestamp(x) is represented by x itself.
-/

/-- A ReferenceDesignator row: identifies a physical sensor location,
unique by its string name. -/
structure ReferenceDesignator where
  name : String
deriving DecidableEq

/-- An ExpectedStream row: stream definition with acquisition method and
nullable rate/threshold configuration. -/
structure ExpectedStream where
  name : String
  method : String
  rate : Option ℚ
  warn_interval : Option ℚ
  fail_interval : Option ℚ
deriving DecidableEq

/-- A DeployedStream row: the join of one ReferenceDesignator and one
ExpectedStream. -/
structure DeployedStream where
  ref_des : ReferenceDesignator
  expected_stream : ExpectedStream
deriving DecidableEq

/-- A Counts row: one observation (deployed stream, particle count,
absolute timestamp in Unix seconds). -/
structure Counts where
  stream : DeployedStream
  particle_count : ℤ
  timestamp : ℚ
deriving DecidableEq

/-- Modelled from the spec: the Counts.rate method lives in the repository's
model module (model/rsn_status_model.py), which is not part of the monitor
source file; the spec defines it as
(this.particle_count - prior.particle_count) / (this.timestamp - prior.timestamp). -/
def Counts.rate (this prior : Counts) : ℚ :=
  ((this.particle_count - prior.particle_count : ℤ) : ℚ) / (this.timestamp - prior.timestamp)

/-- The in-process state backing one monitor: the three identity tables,
the Counts log (newest-first), and the module-level memoization cache of
_get_or_create_stream. -/
structure MonitorState where
  refDesignators : List ReferenceDesignator
  expectedStreams : List ExpectedStream
  deployedStreams : List DeployedStream
  counts : List Counts
  cacheMap : List ((String × String × String) × DeployedStream)
deriving DecidableEq

/-- The empty store with an empty memoization cache. -/
def initState : MonitorState := ⟨[], [], [], [], []⟩

namespace BaseStatusMonitor

/-- Python truthiness-guarded threshold test: models the expression
"interval and rate < interval" where interval is a nullable numeric. -/
def pyThresholdLt (interval : Option ℚ) (rate : ℚ) : Bool :=
  match interval with
  | none => false
  | some x => decide (x ≠ 0) && decide (rate < x)

/-- Lines 41-54 of BaseStatusMonitor.status with the rate abstracted as a
parameter: default FAILURE; expected_rate is read from the fail_interval
field (line 45); warn branch sets OPERATIONAL then possibly PARTIAL;
elif fail branch sets PARTIAL. -/
def status_core (rate : ℚ) (warn_interval fail_interval : Option ℚ) : String :=
  let expected_rate := fail_interval
  if pyThresholdLt warn_interval rate then
    if pyThresholdLt expected_rate rate then "PARTIAL" else "OPERATIONAL"
  else if pyThresholdLt fail_interval rate then "PARTIAL"
  else "FAILURE"

end BaseStatusMonitor

/-- The claim's reading of "the threshold is set": non-null and non-zero. -/
def specSet (o : Option ℚ) : Bool :=
  match o with
  | none => false
  | some x => decide (x ≠ 0)

/-- Decision procedure transcribed from the spec's words (section 4.2):
default FAILURE; if warn_interval is set and rate < warn_interval the state
becomes OPERATIONAL, and additionally becomes PARTIAL if the expected-rate
threshold (read from the fail_interval field) is set and rate is below it;
else if fail_interval is set and rate < fail_interval the state is PARTIAL;
otherwise FAILURE. -/
def classify_spec (rate : ℚ) (warn_interval fail_interval : Option ℚ) : String :=
  let expected_rate := fail_interval
  if specSet warn_interval && decide (rate < warn_interval.getD 0) then
    if specSet expected_rate && decide (rate < expected_rate.getD 0) then "PARTIAL"
    else "OPERATIONAL"
  else if specSet fail_interval && decide (rate < fail_interval.getD 0) then "PARTIAL"
  else "FAILURE"

lemma status_core_eq_classify_spec (rate : ℚ) (warn fail : Option ℚ) :
    BaseStatusMonitor.status_core rate warn fail = classify_spec rate warn fail := by
  rcases warn with _ | w <;> rcases fail with _ | f <;>
    simp [BaseStatusMonitor.status_core, classify_spec, BaseStatusMonitor.pyThresholdLt, specSet]

namespace BaseStatusMonitor

/-- First-match scan modelling session.query(ReferenceDesignator).filter(
ReferenceDesignator.name == refdes).first(). -/
def findRefDes : List ReferenceDesignator → String → Option ReferenceDesignator
  | [], _ => none
  | r :: rest, n => if r.name = n then some r else findRefDes rest n

/-- First-match scan modelling session.query(ExpectedStream).filter(
and_(name == stream, method == method)).first(). -/
def findExpected : List ExpectedStream → String → String → Option ExpectedStream
  | [], _, _ => none
  | e :: rest, s, m => if e.name = s ∧ e.method = m then some e else findExpected rest s m

/-- First-match scan modelling session.query(DeployedStream).filter(
and_(ref_des == _refdes, expected_stream == expected)).first(). -/
def findDeployed : List DeployedStream → ReferenceDesignator → ExpectedStream → Option DeployedStream
  | [], _, _ => none
  | d :: rest, rd, es =>
    if d.ref_des = rd ∧ d.expected_stream = es then some d else findDeployed rest rd es

/-- Lookup in the module-level cachetools memoization map, keyed by the
(refdes, stream, method) argument triple. -/
def cacheFind : List ((String × String × String) × DeployedStream) →
    String × String × String → Option DeployedStream
  | [], _ => none
  | (k, v) :: rest, key => if k = key then some v else cacheFind rest key

/-- BaseStatusMonitor._get_or_create_stream (lines 64-80), decorated with
cachetools.cached: on a cache hit the body is skipped; otherwise each of the
three identity rows is looked up and staged when missing, and the resulting
DeployedStream is memoized. -/
def _get_or_create_stream (st : MonitorState) (refdes stream method : String) :
    DeployedStream × MonitorState :=
  match cacheFind st.cacheMap (refdes, stream, method) with
  | some d => (d, st)
  | none =>
    let rd? := findRefDes st.refDesignators refdes
    let _refdes : ReferenceDesignator := rd?.getD ⟨refdes⟩
    let rds := match rd? with
      | some _ => st.refDesignators
      | none => _refdes :: st.refDesignators
    let es? := findExpected st.expectedStreams stream method
    let expected : ExpectedStream := es?.getD ⟨stream, method, none, none, none⟩
    let ess := match es? with
      | some _ => st.expectedStreams
      | none => expected :: st.expectedStreams
    let ds? := findDeployed st.deployedStreams _refdes expected
    let deployed : DeployedStream := ds?.getD ⟨_refdes, expected⟩
    let dss := match ds? with
      | some _ => st.deployedStreams
      | none => deployed :: st.deployedStreams
    (deployed,
      { st with
          refDesignators := rds
          expectedStreams := ess
          deployedStreams := dss
          cacheMap := ((refdes, stream, method), deployed) :: st.cacheMap })

lemma counts_get_or_create (st : MonitorState) (r s m : String) :
    ((_get_or_create_stream st r s m).2).counts = st.counts := by
  cases h : cacheFind st.cacheMap (r, s, m) <;> simp [_get_or_create_stream, h]

lemma get_or_create_cache_hit (st : MonitorState) (r s m : String) (d : DeployedStream)
    (h : cacheFind st.cacheMap (r, s, m) = some d) :
    _get_or_create_stream st r s m = (d, st) := by
  simp [_get_or_create_stream, h]

lemma cacheFind_get_or_create (st : MonitorState) (r s m : String) :
    cacheFind ((_get_or_create_stream st r s m).2).cacheMap (r, s, m) =
      some (_get_or_create_stream st r s m).1 := by
  cases h : cacheFind st.cacheMap (r, s, m) with
  | none => simp [_get_or_create_stream, h, cacheFind]
  | some d => simp [_get_or_create_stream, h]

end BaseStatusMonitor

/-- C5: resolving an identical (refdes, stream, method) triple twice returns
the same DeployedStream both times and leaves the entire store and cache
unchanged on the second call (so no duplicate ReferenceDesignator,
ExpectedStream or DeployedStream rows are created); and a newly seen
ExpectedStream is created with null rate and thresholds. -/
theorem C5_identity_idempotence :
    (∀ (st : MonitorState) (refdes stream method : String),
        (BaseStatusMonitor._get_or_create_stream
            ((BaseStatusMonitor._get_or_create_stream st refdes stream method).2)
            refdes stream method)
          = ((BaseStatusMonitor._get_or_create_stream st refdes stream method).1,
             (BaseStatusMonitor._get_or_create_stream st refdes stream method).2))
    ∧ (∀ (st : MonitorState) (refdes stream method : String),
        BaseStatusMonitor.cacheFind st.cacheMap (refdes, stream, method) = none →
        BaseStatusMonitor.findExpected st.expectedStreams stream method = none →
        ((BaseStatusMonitor._get_or_create_stream st refdes stream method).2).expectedStreams
          = ⟨stream, method, none, none, none⟩ :: st.expectedStreams) := by
  constructor
  · intro st r s m
    exact BaseStatusMonitor.get_or_create_cache_hit _ r s m _
      (BaseStatusMonitor.cacheFind_get_or_create st r s m)
  · intro st r s m hc he
    simp [BaseStatusMonitor._get_or_create_stream, hc, he]

/-- Witness for C5 at a concrete input: resolving from the empty store
creates the ExpectedStream with null thresholds. -/
theorem C5_identity_idempotence_witness :
    ((BaseStatusMonitor._get_or_create_stream initState "A-B-C" "st1" "telemetered").2).expectedStreams
      = [⟨"st1", "telemetered", none, none, none⟩] :=
  C5_identity_idempotence.2 initState "A-B-C" "st1" "telemetered" rfl rfl

namespace BaseStatusMonitor

/-- Days from year 1 to January 1 of the given year in the proleptic
Gregorian calendar; models the ordinal arithmetic behind Python
datetime date subtraction. -/
def daysBeforeYear (y : Nat) : Nat :=
  let n := y - 1
  n * 365 + n / 4 - n / 100 + n / 400

/-- Line 30: ntp_epoch_offset is the datetime difference
(1970-01-01) - (1900-01-01) in total seconds. -/
def ntp_epoch_offset : ℚ :=
  ((daysBeforeYear 1970 - daysBeforeYear 1900) * 86400 : ℕ)

/-- Line 109: the absolute timestamp stored for an observation,
datetime.utcfromtimestamp(ntp_timestamp - ntp_epoch_offset), represented
in Unix seconds. -/
def ntpToUnix (ntp : ℚ) : ℚ := ntp - ntp_epoch_offset

/-- Lines 82-84: _get_last_count, the most recent Counts row for the given
stream (ordered by timestamp descending, first row; on a timestamp tie the
most recently staged row — nearest the head of the newest-first list —
is taken, modelling one admissible database ordering). -/
def _get_last_count : List Counts → DeployedStream → Option Counts
  | [], _ => none
  | c :: rest, d =>
    let r := _get_last_count rest d
    if c.stream = d then
      match r with
      | none => some c
      | some b => if b.timestamp > c.timestamp then some b else some c
    else r

end BaseStatusMonitor

namespace CassStatusMonitor

/-- One row of the bulk metadata query (line 118):
select subsite, node, sensor, stream, method, count, last from
stream_metadata — the tuple components are in the query's column order, so
the 4th component carries the stream column and the 5th the method column. -/
abbrev RawRow := String × String × String × String × String × ℤ × ℚ

/-- The loop body of _counts_from_rows (lines 108-115). The destructuring
mirrors line 108, which binds the names
(subsite, node, sensor, method, stream, count, ntp_timestamp) positionally. -/
def processRow (st : MonitorState) (row : RawRow) : MonitorState :=
  match row with
  | (subsite, node, sensor, method, stream, count, ntp_timestamp) =>
    let timestamp := BaseStatusMonitor.ntpToUnix ntp_timestamp
    let refdes := subsite ++ "-" ++ node ++ "-" ++ sensor
    let res := BaseStatusMonitor._get_or_create_stream st refdes stream method
    let deployed := res.1
    let st1 := res.2
    let last_count := BaseStatusMonitor._get_last_count st1.counts deployed
    match last_count with
    | none => { st1 with counts := ⟨deployed, count, timestamp⟩ :: st1.counts }
    | some lc =>
      if lc.particle_count ≠ count then
        { st1 with counts := ⟨deployed, count, timestamp⟩ :: st1.counts }
      else st1

/-- Lines 105-115: _counts_from_rows folds the loop body over the rows. -/
def _counts_from_rows (st : MonitorState) (rows : List RawRow) : MonitorState :=
  rows.foldl processRow st

/-- Lines 102-103: gather_all feeds the bulk query's rows (passed in here,
since the network is external) through _counts_from_rows. -/
def gather_all (st : MonitorState) (rows : List RawRow) : MonitorState :=
  _counts_from_rows st rows

/-- The DeployedStream a raw row resolves to (lines 110-111), with the
same positional destructuring as line 108. -/
def resolvedStream (st : MonitorState) (row : RawRow) : DeployedStream :=
  match row with
  | (subsite, node, sensor, method, stream, _, _) =>
    (BaseStatusMonitor._get_or_create_stream st (subsite ++ "-" ++ node ++ "-" ++ sensor)
      stream method).1

/-- The 6th component of a raw row: the count column. -/
def rowCount (row : RawRow) : ℤ := row.2.2.2.2.2.1

/-- The 7th component of a raw row: the last (NTP timestamp) column. -/
def rowNtp (row : RawRow) : ℚ := row.2.2.2.2.2.2

/-- The Counts row staged for a raw row (line 114). -/
def mkCounts (st : MonitorState) (row : RawRow) : Counts :=
  ⟨resolvedStream st row, rowCount row, BaseStatusMonitor.ntpToUnix (rowNtp row)⟩

/-- The dedup condition at line 113: append when no prior count exists for
the resolved stream or the latest particle_count differs from this row's
count. -/
def shouldAppend (st : MonitorState) (row : RawRow) : Bool :=
  match BaseStatusMonitor._get_last_count st.counts (resolvedStream st row) with
  | none => true
  | some lc => decide (lc.particle_count ≠ rowCount row)

lemma processRow_counts_spec (st : MonitorState) (row : RawRow) :
    (processRow st row).counts =
      if shouldAppend st row then mkCounts st row :: st.counts else st.counts := by
  obtain ⟨a, b, c, d, e, cnt, t⟩ := row
  simp only [processRow, shouldAppend, resolvedStream, mkCounts, rowCount, rowNtp,
    BaseStatusMonitor.counts_get_or_create]
  cases h : BaseStatusMonitor._get_last_count st.counts
      ((BaseStatusMonitor._get_or_create_stream st (a ++ "-" ++ b ++ "-" ++ c) e d).1) with
  | none => simp [h, BaseStatusMonitor.counts_get_or_create]
  | some lc =>
    by_cases hne : lc.particle_count = cnt <;>
      simp [h, hne, BaseStatusMonitor.counts_get_or_create]

end CassStatusMonitor

/-- The ExpectedStream of the running concrete example: stream st1 acquired
by method telemetered, no thresholds configured. -/
def es0 : ExpectedStream := ⟨"st1", "telemetered", none, none, none⟩

/-- The DeployedStream of the running concrete example. -/
def d0 : DeployedStream := ⟨⟨"A-B-C"⟩, es0⟩

/-- A concrete store holding the example stream and one Counts row
(count 100 at Unix second 10), with a cold memoization cache. -/
def st0 : MonitorState := ⟨[⟨"A-B-C"⟩], [es0], [d0], [⟨d0, 100, 10⟩], []⟩

/-- A bulk query row in the query's column order: stream column st1,
method column telemetered. -/
def rowC2 : CassStatusMonitor.RawRow := ("A", "B", "C", "st1", "telemetered", 100, 2208988810)

/-- C2: evaluating the ingestion loop on the bulk row
(A, B, C, st1, telemetered, 100, ...) — st1 in the query's stream column,
telemetered in its method column — creates ExpectedStream(name=telemetered,
method=st1): the 4th field is used as the acquisition method and the 5th as
the stream name, the opposite of the query's column order. -/
theorem C2_stream_method_swapped :
    ((CassStatusMonitor.processRow initState rowC2).expectedStreams
        = [⟨"telemetered", "st1", none, none, none⟩])
    ∧ ((CassStatusMonitor.processRow initState rowC2).expectedStreams
        ≠ [⟨"st1", "telemetered", none, none, none⟩]) := by
  constructor <;> decide

/-- C3: the ingestion loop appends a new Counts row exactly when no Counts
exists yet for the resolved stream or the latest recorded particle_count
differs from the row's count; ingesting the same raw observation twice from
the empty store yields exactly one Counts row; and a repeated observation
with an unchanged count appends nothing for any (in particular any newer)
timestamp. -/
theorem C3_dedup_ingestion :
    (∀ (st : MonitorState) (row : CassStatusMonitor.RawRow),
        (CassStatusMonitor.processRow st row).counts =
          if CassStatusMonitor.shouldAppend st row then
            CassStatusMonitor.mkCounts st row :: st.counts
          else st.counts)
    ∧ (∀ row : CassStatusMonitor.RawRow,
        (CassStatusMonitor.processRow (CassStatusMonitor.processRow initState row) row).counts.length
          = 1)
    ∧ (∀ (st : MonitorState) (a b c d e : String) (cnt : ℤ) (t : ℚ) (lc : Counts),
        BaseStatusMonitor._get_last_count st.counts
            (CassStatusMonitor.resolvedStream st (a, b, c, d, e, cnt, t)) = some lc →
        lc.particle_count = cnt →
        (CassStatusMonitor.processRow st (a, b, c, d, e, cnt, t)).counts = st.counts) := by
  refine ⟨CassStatusMonitor.processRow_counts_spec, ?_, ?_⟩
  · intro row
    obtain ⟨a, b, c, d, e, cnt, t⟩ := row
    simp [CassStatusMonitor.processRow, BaseStatusMonitor._get_or_create_stream,
      BaseStatusMonitor.cacheFind, BaseStatusMonitor.findRefDes,
      BaseStatusMonitor.findExpected, BaseStatusMonitor.findDeployed,
      BaseStatusMonitor._get_last_count, initState]
  · intro st a b c d e cnt t lc h hpc
    rw [CassStatusMonitor.processRow_counts_spec]
    have hs : CassStatusMonitor.shouldAppend st (a, b, c, d, e, cnt, t) = false := by
      simp [CassStatusMonitor.shouldAppend, h, CassStatusMonitor.rowCount, hpc]
    simp [hs]

/-- Witness for C3 at a concrete input: repeating the observation with an
unchanged count 100 and a strictly newer timestamp appends no Counts row. -/
theorem C3_dedup_ingestion_witness :
    (CassStatusMonitor.processRow st0 ("A", "B", "C", "telemetered", "st1", 100, 2208988900)).counts
      = st0.counts :=
  C3_dedup_ingestion.2.2 st0 "A" "B" "C" "telemetered" "st1" 100 2208988900 ⟨d0, 100, 10⟩
    (by decide) rfl

/-- C8: the NTP epoch offset computed from the 1900-01-01 and 1970-01-01
dates equals 2208988800 seconds; every ingested observation's timestamp is
the source timestamp minus that fixed offset; and the NTP timestamp
2208988800 converts to Unix second 0, i.e. 1970-01-01T00:00:00Z. -/
theorem C8_epoch_conversion :
    BaseStatusMonitor.ntp_epoch_offset = 2208988800
    ∧ (∀ t : ℚ, BaseStatusMonitor.ntpToUnix t = t - 2208988800)
    ∧ BaseStatusMonitor.ntpToUnix 2208988800 = 0
    ∧ (∀ (st : MonitorState) (row : CassStatusMonitor.RawRow),
        (CassStatusMonitor.processRow st row).counts = st.counts
        ∨ (CassStatusMonitor.processRow st row).counts
            = ⟨CassStatusMonitor.resolvedStream st row, CassStatusMonitor.rowCount row,
               CassStatusMonitor.rowNtp row - 2208988800⟩ :: st.counts) := by
  have hoff : BaseStatusMonitor.ntp_epoch_offset = 2208988800 := by decide
  refine ⟨hoff, fun t => by rw [BaseStatusMonitor.ntpToUnix, hoff], ?_, ?_⟩
  · rw [BaseStatusMonitor.ntpToUnix, hoff]; ring
  · intro st row
    rw [CassStatusMonitor.processRow_counts_spec]
    cases hs : CassStatusMonitor.shouldAppend st row
    · left; simp
    · right
      simp [CassStatusMonitor.mkCounts, BaseStatusMonitor.ntpToUnix, hoff]

/-- Per-stream monotonicity of the particle counts recorded for one
deployed stream: any two recorded Counts rows with ordered timestamps have
ordered counts. -/
def countsMonotone (l : List Counts) (d : DeployedStream) : Bool :=
  let f := l.filter (fun c => decide (c.stream = d))
  f.all (fun c1 => f.all (fun c2 =>
    !(decide (c1.timestamp ≤ c2.timestamp)) || decide (c1.particle_count ≤ c2.particle_count)))

/-- A bulk query row repeating the example stream with a lower count 50 at
a newer timestamp (Unix second 20). -/
def rowC9 : CassStatusMonitor.RawRow := ("A", "B", "C", "telemetered", "st1", 50, 2208988820)

/-- Counterexample for C9: from a store whose Counts log for the example
stream is monotone (a single row with count 100), ingesting a row with the
lower count 50 at a newer timestamp appends it, leaving a Counts log whose
particle counts strictly decrease in timestamp order. -/
theorem C9_counterexample_monotonicity :
    countsMonotone st0.counts d0 = true
    ∧ (CassStatusMonitor.processRow st0 rowC9).counts = [⟨d0, 50, 20⟩, ⟨d0, 100, 10⟩]
    ∧ countsMonotone (CassStatusMonitor.processRow st0 rowC9).counts d0 = false := by
  have hoff : BaseStatusMonitor.ntp_epoch_offset = 2208988800 := by decide
  have hts : BaseStatusMonitor.ntpToUnix 2208988820 = 20 := by
    rw [BaseStatusMonitor.ntpToUnix, hoff]; norm_num
  have hres : CassStatusMonitor.resolvedStream st0 rowC9 = d0 := by decide
  have hs : CassStatusMonitor.shouldAppend st0 rowC9 = true := by decide
  have h2 : (CassStatusMonitor.processRow st0 rowC9).counts
      = [(⟨d0, 50, 20⟩ : Counts), ⟨d0, 100, 10⟩] := by
    rw [CassStatusMonitor.processRow_counts_spec]
    simp [hs, CassStatusMonitor.mkCounts, hres]
    simp [CassStatusMonitor.rowCount, CassStatusMonitor.rowNtp, rowC9, hts, st0]
  exact ⟨by decide, h2, by rw [h2]; decide⟩

/-- C9 amended: ingestion appends any observation whose count differs from
the stream's latest recorded particle_count, including a strictly lower one;
the monotone-counter property is an assumption about the source, not an
invariant preserved by ingest. -/
theorem C9_amended_lower_count_appended :
    ∀ (st : MonitorState) (row : CassStatusMonitor.RawRow) (lc : Counts),
      BaseStatusMonitor._get_last_count st.counts (CassStatusMonitor.resolvedStream st row)
        = some lc →
      CassStatusMonitor.rowCount row < lc.particle_count →
      (CassStatusMonitor.processRow st row).counts
        = CassStatusMonitor.mkCounts st row :: st.counts := by
  intro st row lc h hlt
  rw [CassStatusMonitor.processRow_counts_spec]
  have hs : CassStatusMonitor.shouldAppend st row = true := by
    simp [CassStatusMonitor.shouldAppend, h, hlt.ne']
  simp [hs]

/-- Witness for the amended C9 at a concrete input: the lower count 50 is
appended after the recorded count 100. -/
theorem C9_amended_lower_count_appended_witness :
    (CassStatusMonitor.processRow st0 rowC9).counts
      = CassStatusMonitor.mkCounts st0 rowC9 :: st0.counts :=
  C9_amended_lower_count_appended st0 rowC9 ⟨d0, 100, 10⟩ (by decide) (by decide)

/-- C1: the status classifier follows exactly the spec's decision procedure
(default FAILURE; warn branch to OPERATIONAL with an expected-rate downgrade
read from the fail_interval field; elif fail branch to PARTIAL), and with
warn_interval=10 and fail_interval=5 a rate of 8 yields OPERATIONAL, 3 yields
PARTIAL, and 12 yields FAILURE. -/
theorem C1_classifier_decision_procedure :
    (∀ (rate : ℚ) (warn fail : Option ℚ),
        BaseStatusMonitor.status_core rate warn fail = classify_spec rate warn fail)
    ∧ BaseStatusMonitor.status_core 8 (some 10) (some 5) = "OPERATIONAL"
    ∧ BaseStatusMonitor.status_core 3 (some 10) (some 5) = "PARTIAL"
    ∧ BaseStatusMonitor.status_core 12 (some 10) (some 5) = "FAILURE" := by
  refine ⟨status_core_eq_classify_spec, ?_, ?_, ?_⟩ <;> decide

namespace UframeStatusMonitor

/-- One entry of the JSON array returned by the metadata/times endpoint. -/
structure StreamDict where
  stream : String
  method : String
  count : ℤ
  endTime : ℚ
deriving DecidableEq

/-- An HTTP response from the per-stream metadata endpoint: its status code
and the parsed JSON body. -/
structure HttpResponse where
  status_code : ℤ
  body : List StreamDict
deriving DecidableEq

/-- Lines 142-169: _query_api. Defaults count=0, timestamp=0; a non-200
response returns the defaults; otherwise the first body entry matching the
stream's (name, method) supplies count and endTime, and no match leaves the
defaults. -/
def _query_api (response : HttpResponse) (deployed_stream : DeployedStream) : ℤ × ℚ :=
  let stream := deployed_stream.expected_stream.name
  let method := deployed_stream.expected_stream.method
  if response.status_code ≠ 200 then (0, 0)
  else
    match response.body.find? (fun d => decide (d.stream = stream ∧ d.method = method)) with
    | none => (0, 0)
    | some d => (d.count, d.endTime)

/-- Lines 136-140: _create_counts unconditionally stages a Counts row built
from the API result for the stream. -/
def _create_counts (st : MonitorState) (deployed_stream : DeployedStream)
    (response : HttpResponse) : MonitorState :=
  let ct := _query_api response deployed_stream
  { st with counts := ⟨deployed_stream, ct.1, ct.2⟩ :: st.counts }

/-- Lines 129-134: gather_all iterates every DeployedStream row in the
store and creates counts for each; the HTTP environment maps each stream to
the response its request produces. -/
def gather_all (env : DeployedStream → HttpResponse) (st : MonitorState) : MonitorState :=
  st.deployedStreams.foldl (fun s d => _create_counts s d (env d)) st

lemma foldl_create_counts_length (env : DeployedStream → HttpResponse)
    (l : List DeployedStream) (st : MonitorState) :
    (l.foldl (fun s d => _create_counts s d (env d)) st).counts.length
      = st.counts.length + l.length := by
  induction l generalizing st with
  | nil => simp
  | cons d rest ih =>
    rw [List.foldl_cons, ih]
    simp [_create_counts]
    omega

end UframeStatusMonitor

/-- An HTTP environment whose every response repeats the example stream's
recorded observation (count 100 at Unix second 10) with success status. -/
def env0 : DeployedStream → UframeStatusMonitor.HttpResponse :=
  fun _ => ⟨200, [⟨"st1", "telemetered", 100, 10⟩]⟩

/-- Counterexample for C4: the per-stream collector does not feed its
observations through the dedup pipeline — a gather_all cycle whose
observation for the example stream is unchanged from the latest recorded
Counts row still appends a duplicate Counts row. -/
theorem C4_counterexample_uframe_no_dedup :
    st0.counts = [⟨d0, 100, 10⟩]
    ∧ (UframeStatusMonitor.gather_all env0 st0).counts
        = [⟨d0, 100, 10⟩, ⟨d0, 100, 10⟩] := by
  constructor <;> decide

/-- C4 amended: only the bulk collector dedups — its ingestion appends no
Counts row for a row whose count is unchanged from the resolved stream's
latest recorded particle_count — while the per-stream collector appends one
Counts row per known DeployedStream on every cycle, unchanged or not. -/
theorem C4_amended_only_bulk_dedups :
    (∀ (st : MonitorState) (row : CassStatusMonitor.RawRow),
        CassStatusMonitor.shouldAppend st row = false →
        (CassStatusMonitor.processRow st row).counts = st.counts)
    ∧ (∀ (env : DeployedStream → UframeStatusMonitor.HttpResponse) (st : MonitorState),
        (UframeStatusMonitor.gather_all env st).counts.length
          = st.counts.length + st.deployedStreams.length) := by
  constructor
  · intro st row h
    rw [CassStatusMonitor.processRow_counts_spec]
    simp [h]
  · intro env st
    exact UframeStatusMonitor.foldl_create_counts_length env st.deployedStreams st

/-- Witness for the amended C4 at a concrete input: an unchanged bulk row
(count still 100) appends nothing. -/
theorem C4_amended_only_bulk_dedups_witness :
    (CassStatusMonitor.processRow st0 ("A", "B", "C", "telemetered", "st1", 100, 2208988950)).counts
      = st0.counts :=
  C4_amended_only_bulk_dedups.1 st0 ("A", "B", "C", "telemetered", "st1", 100, 2208988950)
    (by decide)

/-- C7: for each queried DeployedStream, a non-200 response yields the
default observation (0, 0); a body with no entry matching the stream's
(name, method) also yields (0, 0); a successful response with a matching
entry yields the first match's count and endTime; and the cycle always
produces one observation per known stream. -/
theorem C7_query_api_fault_handling :
    (∀ (resp : UframeStatusMonitor.HttpResponse) (d : DeployedStream),
        resp.status_code ≠ 200 → UframeStatusMonitor._query_api resp d = (0, 0))
    ∧ (∀ (resp : UframeStatusMonitor.HttpResponse) (d : DeployedStream),
        resp.body.find? (fun e =>
            decide (e.stream = d.expected_stream.name ∧ e.method = d.expected_stream.method))
          = none →
        UframeStatusMonitor._query_api resp d = (0, 0))
    ∧ (∀ (resp : UframeStatusMonitor.HttpResponse) (d : DeployedStream)
          (e : UframeStatusMonitor.StreamDict),
        resp.status_code = 200 →
        resp.body.find? (fun e =>
            decide (e.stream = d.expected_stream.name ∧ e.method = d.expected_stream.method))
          = some e →
        UframeStatusMonitor._query_api resp d = (e.count, e.endTime))
    ∧ (∀ (env : DeployedStream → UframeStatusMonitor.HttpResponse) (st : MonitorState),
        (UframeStatusMonitor.gather_all env st).counts.length
          = st.counts.length + st.deployedStreams.length) := by
  refine ⟨?_, ?_, ?_, ?_⟩
  · intro resp d h
    simp [UframeStatusMonitor._query_api, h]
  · intro resp d h
    simp only [UframeStatusMonitor._query_api, h]
    split <;> rfl
  · intro resp d e h200 hf
    simp only [UframeStatusMonitor._query_api, h200, hf]
    norm_num
  · intro env st
    exact UframeStatusMonitor.foldl_create_counts_length env st.deployedStreams st

/-- Witness for C7 at a concrete input: a 404 response yields the default
observation. -/
theorem C7_query_api_fault_handling_witness :
    UframeStatusMonitor._query_api ⟨404, []⟩ d0 = (0, 0) :=
  C7_query_api_fault_handling.1 ⟨404, []⟩ d0 (by decide)

namespace BaseStatusMonitor

/-- Ordering of Counts rows by timestamp, newest first (the order_by of
lines 58-59). -/
def tsGE (x y : Counts) : Prop := x.timestamp ≥ y.timestamp

instance : DecidableRel tsGE := fun x y => inferInstanceAs (Decidable (x.timestamp ≥ y.timestamp))

/-- Lines 56-62: last_rate takes the two most recent Counts rows of the
stream (timestamp descending, first two); fewer than two rows gives rate 0,
otherwise the newest row's rate relative to the second newest. -/
def last_rate (st : MonitorState) (deployed_stream : DeployedStream) : ℚ :=
  let counts :=
    ((st.counts.filter (fun c => decide (c.stream = deployed_stream))).insertionSort tsGE).take 2
  match counts with
  | c0 :: c1 :: _ => c0.rate c1
  | _ => 0

/-- Lines 40-54: status computes the stream's latest rate and classifies it
against the expected stream's thresholds. -/
def status (st : MonitorState) (deployed_stream : DeployedStream) : String :=
  status_core (last_rate st deployed_stream)
    deployed_stream.expected_stream.warn_interval
    deployed_stream.expected_stream.fail_interval

end BaseStatusMonitor

/-- C6: with fewer than two recorded Counts rows for a stream the rate
query returns 0 (a total, non-error result); and when neither warn_interval
nor fail_interval is configured the classifier returns FAILURE, never a
healthy state. -/
theorem C6_zero_rate_and_no_thresholds_failure :
    (∀ (st : MonitorState) (d : DeployedStream),
        (st.counts.filter (fun c => decide (c.stream = d))).length < 2 →
        BaseStatusMonitor.last_rate st d = 0)
    ∧ (∀ (st : MonitorState) (d : DeployedStream),
        d.expected_stream.warn_interval = none →
        d.expected_stream.fail_interval = none →
        BaseStatusMonitor.status st d = "FAILURE") := by
  constructor
  · intro st d h
    unfold BaseStatusMonitor.last_rate
    have hlen :
        ((st.counts.filter (fun c => decide (c.stream = d))).insertionSort
            BaseStatusMonitor.tsGE).length < 2 := by
      rw [List.length_insertionSort]; exact h
    rcases hsort : (st.counts.filter (fun c => decide (c.stream = d))).insertionSort
        BaseStatusMonitor.tsGE with _ | ⟨c0, _ | ⟨c1, rest⟩⟩
    · simp [hsort]
    · simp [hsort]
    · rw [hsort] at hlen
      simp at hlen
      omega
  · intro st d hw hf
    unfold BaseStatusMonitor.status BaseStatusMonitor.status_core
    rw [hw, hf]
    simp [BaseStatusMonitor.pyThresholdLt]

/-- Witness for C6 at a concrete input: the example stream has one Counts
row, no thresholds, and classifies as FAILURE with rate 0. -/
theorem C6_zero_rate_and_no_thresholds_failure_witness :
    BaseStatusMonitor.last_rate st0 d0 = 0 ∧ BaseStatusMonitor.status st0 d0 = "FAILURE" :=
  ⟨C6_zero_rate_and_no_thresholds_failure.1 st0 d0 (by decide),
   C6_zero_rate_and_no_thresholds_failure.2 st0 d0 rfl rfl⟩

namespace UframeStatusMonitor

/-- str.split(dash, maxsplit at this occurrence): splits a character list
at its first dash; none when the list has no dash. -/
def splitOnceDash : List Char → Option (List Char × List Char)
  | [] => none
  | c :: rest =>
    if c = '-' then some ([], rest)
    else (splitOnceDash rest).map (fun p => (c :: p.1, p.2))

/-- Lines 171-174: parse_reference_designator splits ref_des at its first
two dashes into (subsite, node, sensor); with fewer than two dashes the
three-way unpack fails, modelled as none. -/
def parse_reference_designator (ref_des : List Char) :
    Option (List Char × List Char × List Char) :=
  match splitOnceDash ref_des with
  | none => none
  | some (subsite, rest) =>
    match splitOnceDash rest with
    | none => none
    | some (node, sensor) => some (subsite, node, sensor)

/-- The dash-join producing a reference designator string (line 110). -/
def joinRefdes (subsite node sensor : List Char) : List Char :=
  subsite ++ ('-' :: (node ++ ('-' :: sensor)))

lemma splitOnceDash_append (s t : List Char) (h : '-' ∉ s) :
    splitOnceDash (s ++ '-' :: t) = some (s, t) := by
  induction s with
  | nil => simp [splitOnceDash]
  | cons c cs ih =>
    have hc : c ≠ '-' := fun hcc => h (hcc ▸ List.mem_cons_self c cs)
    have hcs : '-' ∉ cs := fun hm => h (List.mem_cons_of_mem c hm)
    simp [splitOnceDash, hc, ih hcs]

end UframeStatusMonitor

/-- C10: for any subsite and node containing no dash and any sensor (which
may itself contain dashes), parsing the dash-join of (subsite, node,
sensor) returns exactly (subsite, node, sensor), because the parse splits
on at most the first two dashes. -/
theorem C10_refdes_round_trip :
    ∀ (subsite node sensor : List Char),
      '-' ∉ subsite → '-' ∉ node →
      UframeStatusMonitor.parse_reference_designator
          (UframeStatusMonitor.joinRefdes subsite node sensor)
        = some (subsite, node, sensor) := by
  intro s n se hs hn
  unfold UframeStatusMonitor.joinRefdes UframeStatusMonitor.parse_reference_designator
  rw [UframeStatusMonitor.splitOnceDash_append s (n ++ ('-' :: se)) hs]
  simp [UframeStatusMonitor.splitOnceDash_append n se hn]

/-- Witness for C10 at a concrete input: a sensor segment containing dashes
survives the round trip. -/
theorem C10_refdes_round_trip_witness :
    UframeStatusMonitor.parse_reference_designator
        (UframeStatusMonitor.joinRefdes ['R', 'S'] ['N', '1'] ['S', 'B', '-', '0', '1'])
      = some (['R', 'S'], ['N', '1'], ['S', 'B', '-', '0', '1']) :=
  C10_refdes_round_trip ['R', 'S'] ['N', '1'] ['S', 'B', '-', '0', '1'] (by decide) (by decide)
